import Mathlib

/-!
Shallow embedding of the cover-letter-site serverless backend
(Netlify functions over a Supabase `profiles` table), together with
theorems checking the specification's claims against it.

Conventions used throughout:
* JS strings are modelled as Lean `String` (all relevant values are ASCII,
  so `String.toLower`, `String.length`, `charCodeAt` agree with JS).
* JS `null`/`undefined` string values are `Option String`; JS truthiness of
  a string value is `optTruthy` (non-null and non-empty).
* Timestamps (epoch milliseconds, `Date.now()` and parsed dates) are `Int`.
* Database rows of the `profiles` table are the structure `Profile`; the
  structure's default field values mirror the column defaults of
  `supabase-schema.sql`.  The `generation_logs` audit table, HTTP/CORS
  plumbing, authentication and JSON parsing are outside the model: handlers
  are embedded from the point where the caller is authenticated and the
  request body is available.
-/

namespace CoverSite

/-- JS `String.prototype.toLowerCase` on the ASCII strings this code base
uses (written over the character list so the kernel can evaluate it). -/
def jsToLower (s : String) : String := String.mk (s.data.map Char.toLower)

/-- JS `s.startsWith(pre)` (written over the character lists so the kernel
can evaluate it). -/
def jsStartsWith (s pre : String) : Bool := pre.data.isPrefixOf s.data

/-- JS `a || b` on strings (empty string is falsy). -/
def jsOrStr (a b : String) : String := if a == "" then b else a

/-- JS truthiness of a nullable string: non-null and non-empty. -/
def optTruthy : Option String → Bool
  | some s => s != ""
  | none => false

/-- JS `a || b` on nullable strings (null, undefined and `""` are falsy). -/
def jsOrOpt (a b : Option String) : Option String := if optTruthy a then a else b

/-- JS `a || null` on a nullable string: a falsy value becomes null. -/
def jsNullable (a : Option String) : Option String := if optTruthy a then a else none

/-- One row of the `profiles` table.  Field defaults mirror the column
defaults of `supabase-schema.sql` (`is_pro boolean default false`,
`subscription_status text default 'none'`, `generations_used integer
default 0`, the rest nullable). -/
structure Profile where
  id : String
  email : Option String := none
  is_pro : Bool := false
  stripe_customer_id : Option String := none
  stripe_subscription_id : Option String := none
  subscription_status : Option String := some ("none")
  plan_id : Option String := none
  generations_used : Int := 0
  current_period_end : Option Int := none
  resume_hash : Option String := none
  resume_summary : Option String := none
  resume_updated_at : Option Int := none
  updated_at : Int := 0
  deriving Repr, DecidableEq

/-- A freshly inserted row for a given user id, all other columns at their
schema defaults (this is what an upsert inserts when no row exists). -/
def defaultProfile (id : String) : Profile := { id := id }

/-- `FREE_GENERATION_LIMIT` from `shared/supabase.mjs` (`getFreeLimit`). -/
def FREE_GENERATION_LIMIT : Int := 3

/-- Subscription test of the current `/api/generate` handler
(`generate.mjs`): `profile?.is_pro === true && (status === "active" ||
status === "trialing")` where `status` is the lowercased
`subscription_status` (null coalesced to `""`). -/
def isSubscribedCurrent (p : Profile) : Bool :=
  p.is_pro && (let s := jsToLower (p.subscription_status.getD (""));
    s == "active" || s == "trialing")

/-- Subscription test of the legacy `/api/generate` handler variant
(`src/unnamed/part_000`, first document): `profile?.is_pro === true &&
profile?.subscription_status === "active"` (exact, case-sensitive, no
`trialing`). -/
def isSubscribedLegacy (p : Profile) : Bool :=
  p.is_pro && (p.subscription_status == some ("active"))

/-- `freeRemaining = Math.max(0, freeLimit - generationsUsed)`. -/
def freeRemaining (p : Profile) : Int :=
  max 0 (FREE_GENERATION_LIMIT - p.generations_used)

/-- `lockPreviewOnly = !isSubscribed && freeRemaining <= 0` from
`generate.mjs`. -/
def lockPreviewOnly (p : Profile) : Bool :=
  !isSubscribedCurrent p && decide (freeRemaining p ≤ 0)

/-- Result of one outbound generation attempt, as produced by
`generateViaBackend` / `generateViaDirectProvider` in `generate.mjs`
(`ok` false covers both a transport failure and a non-success HTTP status;
`text` is already trimmed; absent JS fields are `""`/`0`). -/
structure FetchResult where
  ok : Bool
  text : String := ""
  error : String := ""
  status : Nat := 0
  deriving Repr, DecidableEq

/-- Tags recording which generation mechanisms a request exercised, in
order. -/
inductive AttemptTag where
  | backendAttempt
  | directAttempt
  | localSynthesis
  deriving Repr, DecidableEq

/-- State of generate.mjs step 5 after the backend attempt and the optional
direct-provider attempt: the ordered list of attempts made so far, the
`finalText` variable and the `generationError` variable. -/
structure GatewayRun where
  attempts : List AttemptTag
  finalText : String
  generationError : String
  deriving Repr, DecidableEq

/-- Step 5 of `generate.mjs`: try the backend; on `!(ok && text)` try the
direct provider; on `!(ok && text)` there too, compute `generationError`
(`backendResult.error || directResult.error || "Generation failed"`, then
overridden by `directResult.error` when that is truthy). -/
def runPrimaryAndDirect (backend direct : FetchResult) : GatewayRun :=
  if backend.ok && backend.text != "" then
    { attempts := [AttemptTag.backendAttempt], finalText := backend.text,
      generationError := "" }
  else if direct.ok && direct.text != "" then
    { attempts := [AttemptTag.backendAttempt, AttemptTag.directAttempt],
      finalText := direct.text, generationError := "" }
  else
    let ge := jsOrStr backend.error (jsOrStr direct.error ("Generation failed"))
    let ge := if direct.error != "" then direct.error else ge
    { attempts := [AttemptTag.backendAttempt, AttemptTag.directAttempt],
      finalText := "", generationError := ge }

/-- `sentenceize` from `generate.mjs`: collapse whitespace runs to a single
space and trim (modelled by splitting on whitespace and re-joining the
non-empty pieces, which coincides for ASCII text). -/
def sentenceize (text : String) : String :=
  String.intercalate (" ") ((text.split (fun c => c.isWhitespace)).filter (fun s => s != ""))

/-- `extractHighlights` from `generate.mjs`: split the resume on newline
runs, sentenceize, keep lines longer than 20 characters, take 4.  (Splitting
on single newlines gives the same result after the length filter, since the
extra pieces are empty.) -/
def extractHighlights (resume : String) : List String :=
  (((resume.split (fun c => c == '\n')).map sentenceize).filter
    (fun s => decide (s.length > 20))).take 4

/-- `extractPriorities` from `generate.mjs`: same as the highlights but over
the job description, taking 3. -/
def extractPriorities (jobDescription : String) : List String :=
  (((jobDescription.split (fun c => c == '\n')).map sentenceize).filter
    (fun s => decide (s.length > 20))).take 3

/-- `generateFallbackCoverLetter` from `generate.mjs`: the deterministic
templated local cover letter built from the first long lines of the job
description and resume. -/
def generateFallbackCoverLetter (jobDescription resume tone : String) : String :=
  let priorities := extractPriorities jobDescription
  let highlights := extractHighlights resume
  let roleLine := jsOrStr (priorities.headD ("")) ("the role")
  let toneText := jsOrStr tone ("confident and natural")
  let l1 := ["Dear Hiring Manager,", ""]
  let l2 := ["I am applying for " ++ roleLine ++
    ". My background aligns well with your needs, and I communicate in a " ++
    toneText ++ " style while focusing on measurable outcomes.", ""]
  let l3 := if highlights.length > 0 then
      ["Relevant experience I would bring includes:"] ++
        highlights.map (fun h => "- " ++ h) ++ [""]
    else []
  let l4 := if priorities.length > 1 then
      ["I am especially interested in contributing to priorities such as:"] ++
        (priorities.drop 1).map (fun q => "- " ++ q) ++ [""]
    else []
  let l5 := ["I would welcome the opportunity to discuss how I can contribute to your team from day one.",
    "", "Sincerely,", "[Your Name]"]
  String.intercalate ("\n") (l1 ++ l2 ++ l3 ++ l4 ++ l5)

/-- The `if (!finalText)` local-fallback block of `generate.mjs`: when no
text was produced and `ALLOW_LOCAL_FALLBACK` is enabled, synthesize the
templated letter locally. -/
def applyLocalFallback (r : GatewayRun) (allowLocalFallback : Bool)
    (jobDescription resume tone : String) : GatewayRun :=
  if r.finalText == "" && allowLocalFallback then
    { r with
      attempts := r.attempts ++ [AttemptTag.localSynthesis],
      finalText := generateFallbackCoverLetter jobDescription resume tone }
  else r

/-- JS `a.includes(b)` (substring test). -/
def jsIncludes (s pat : String) : Bool :=
  (List.range (s.data.length + 1)).any (fun i => pat.data.isPrefixOf (s.data.drop i))

/-- The provider-error rewriting of the final 502 branch of `generate.mjs`
(invalid key / invalid model / quota exceeded pattern matches). -/
def rewriteProviderError (msg : String) : String :=
  let lowered := jsToLower msg
  let msg := if jsIncludes lowered ("incorrect api key") || jsIncludes lowered ("invalid api key") then
      "AI provider key is invalid. Update OPENAI_API_KEY." else msg
  let msg := if jsIncludes lowered ("is not a valid model id") then
      "AI model is invalid. Set OPENAI_MODEL to a valid provider model (e.g. openrouter/auto)." else msg
  let msg := if jsIncludes lowered ("exceeded your current quota") ||
      jsIncludes lowered ("insufficient_quota") || jsIncludes lowered ("429") then
      "AI provider quota exceeded. Add billing/credits to your provider project, then retry." else msg
  msg

/-- The whole generation pipeline of `generate.mjs` (backend, direct
provider, optional local synthesis). -/
def gatewayRun (backend direct : FetchResult) (allowLocalFallback : Bool)
    (jobDescription resume tone : String) : GatewayRun :=
  applyLocalFallback (runPrimaryAndDirect backend direct) allowLocalFallback
    jobDescription resume tone

/-- JSON response of the generate handlers, restricted to the fields the
claims are about (`error` is the body's `error` string; unmodelled response
fields such as the preview excerpt and the remaining-count figures are
omitted). -/
structure HandlerResponse where
  status : Nat
  error : Option String := none
  text : Option String := none
  locked : Option Bool := none
  generations_used : Option Int := none
  deriving Repr, DecidableEq

/-- The current `/api/generate` handler (`generate.mjs`), from the point
where the caller is authenticated and the profile row `p` has been read:
body validation, generation with fallbacks, usage-counter increment on
success, preview-locking for exhausted free-tier users.  Returns the JSON
response together with the resulting profile row.  (The best-effort
email-refresh upsert and the `generation_logs` inserts are not modelled.) -/
def currentGenerateHandler (now : Int) (p : Profile)
    (jobDescription resume tone : String) (backend direct : FetchResult)
    (allowLocalFallback : Bool) : HandlerResponse × Profile :=
  let generationsUsed := p.generations_used
  let lockPreview := lockPreviewOnly p
  if jobDescription == "" || resume == "" then
    ({ status := 400, error := some ("Job description and resume are required") }, p)
  else
    let run := gatewayRun backend direct allowLocalFallback jobDescription resume tone
    if run.finalText == "" then
      ({ status := 502,
         error := some (rewriteProviderError (jsOrStr run.generationError ("Generation failed"))) }, p)
    else
      let newCount := generationsUsed + 1
      let p2 := { p with generations_used := newCount, updated_at := now }
      if lockPreview then
        ({ status := 200, text := some (""), locked := some true,
           generations_used := some newCount }, p2)
      else
        ({ status := 200, text := some run.finalText, locked := some false,
           generations_used := some newCount }, p2)

/-- The legacy `/api/generate` handler variant (`src/unnamed/part_000`,
first document), from the point where the caller is authenticated and the
profile row `p` has been read: it denies with HTTP 403 / `limit_reached`
when the free quota is exhausted and the (active-only) subscription test
fails, otherwise forwards to the backend and increments the counter on
success.  `backend` models the single backend fetch (`ok` false carries the
passthrough status, 502 for a transport failure). -/
def legacyGenerateHandler (now : Int) (p : Profile)
    (jobDescription resume tone : String) (backend : FetchResult) :
    HandlerResponse × Profile :=
  let generationsUsed := p.generations_used
  let isSubscribed := isSubscribedLegacy p
  let freeRem := freeRemaining p
  if !isSubscribed && decide (freeRem ≤ 0) then
    ({ status := 403, error := some ("limit_reached"),
       generations_used := some generationsUsed }, p)
  else if jobDescription == "" || resume == "" then
    ({ status := 400, error := some ("Job description and resume are required") }, p)
  else if !backend.ok then
    ({ status := backend.status, error := some (jsOrStr backend.error ("Generation failed")) }, p)
  else
    let newCount := generationsUsed + 1
    let p2 := { p with generations_used := newCount, updated_at := now }
    ({ status := 200, text := some backend.text, locked := some false,
       generations_used := some newCount }, p2)

/-! ## Profile store operations

The `profiles` table is modelled as a list of rows.  `find?` models the
`maybeSingle()` / `profiles[0]` first-match behaviour of the queries. -/

/-- `.eq("email", e).maybeSingle()` — case-sensitive exact email lookup
(used by the webhook `checkout.session.completed` branch). -/
def findByEmailExact (store : List Profile) (email : String) : Option Profile :=
  store.find? (fun p => p.email == some email)

/-- `.ilike("email", e).maybeSingle()` — case-insensitive email lookup
(used by `stripe-success.mjs` and the Lemon webhook). -/
def findByEmailCI (store : List Profile) (email : String) : Option Profile :=
  store.find? (fun p => p.email.map jsToLower == some (jsToLower email))

/-- `.eq("stripe_customer_id", c)` first match. -/
def findByCustomer (store : List Profile) (c : String) : Option Profile :=
  store.find? (fun p => p.stripe_customer_id == some c)

/-- `.eq("stripe_subscription_id", s)` first match. -/
def findBySubscription (store : List Profile) (s : String) : Option Profile :=
  store.find? (fun p => p.stripe_subscription_id == some s)

/-- `update(...).eq("id", uid)`: apply `f` to the rows with id `uid`. -/
def updateById (store : List Profile) (uid : String) (f : Profile → Profile) :
    List Profile :=
  store.map (fun p => if p.id == uid then f p else p)

/-- `upsert({id: uid, ...}, { onConflict: "id" })`: update the existing rows
with id `uid`, or insert a fresh row (schema defaults) with the written
columns applied. -/
def upsertById (store : List Profile) (uid : String) (f : Profile → Profile) :
    List Profile :=
  if store.any (fun p => p.id == uid) then updateById store uid f
  else store ++ [f (defaultProfile uid)]

/-! ## Stripe webhook (`stripe-webhook.mjs`) -/

/-- The `{ current_period_end, plan_id }` object built by the
`checkout.session.completed` branch when `session.subscription` is set and
`stripe.subscriptions.retrieve` succeeds (`plan_id` is
`items?.data?.[0]?.price?.id || null`). -/
structure CheckoutSubData where
  current_period_end : Int
  plan_id : Option String
  deriving Repr, DecidableEq

/-- The fields of a `customer.subscription.updated` event object that the
webhook reads (`current_period_end` is `none` when the payload value is
absent or `0`, both falsy in JS). -/
structure SubUpdate where
  status : String
  id : Option String
  plan_id : Option String
  current_period_end : Option Int
  deriving Repr, DecidableEq

/-- A signature-verified Stripe webhook event, restricted to the payload
fields the handler reads.  `checkoutEmail` models
`session.customer_details?.email || session.customer_email || null`. -/
inductive StripeEvent where
  | checkoutCompleted (clientReferenceId metadataUserId checkoutEmail : Option String)
      (customer subscription : Option String) (subData : Option CheckoutSubData)
  | invoicePaymentFailed (customer subscription : Option String)
  | subscriptionDeleted (customer subId planId : Option String)
  | subscriptionUpdated (customer : Option String) (u : SubUpdate)
  | invoicePaymentSucceeded (customer subscription : Option String)
  | otherEvent
  deriving Repr, DecidableEq

/-- Profile write of the `checkout.session.completed` branch.  When the
subscription lookup yielded no data, the upsert row carries no
`current_period_end` column, so the stored value is kept. -/
def applyCheckoutCompleted (now : Int) (checkoutEmail customer subscription : Option String)
    (subData : Option CheckoutSubData) (p : Profile) : Profile :=
  { p with
    email := checkoutEmail,
    is_pro := true,
    stripe_customer_id := customer,
    stripe_subscription_id := subscription,
    subscription_status := some ("active"),
    plan_id := subData.bind (fun d => d.plan_id),
    current_period_end := match subData with
      | some d => some d.current_period_end
      | none => p.current_period_end,
    updated_at := now }

/-- Profile write of the `invoice.payment_failed` branch. -/
def applyInvoicePaymentFailed (now : Int) (invoiceSubscription : Option String)
    (p : Profile) : Profile :=
  { p with
    subscription_status := some ("past_due"),
    is_pro := false,
    stripe_subscription_id := jsNullable invoiceSubscription,
    updated_at := now }

/-- Profile write of the `customer.subscription.deleted` branch. -/
def applySubscriptionDeleted (now : Int) (subId planId : Option String)
    (p : Profile) : Profile :=
  { p with
    is_pro := false,
    subscription_status := some ("canceled"),
    stripe_subscription_id := jsNullable subId,
    plan_id := planId,
    updated_at := now }

/-- Profile write of the `customer.subscription.updated` branch: the raw
provider status is stored verbatim; `is_pro` is forced false for
`canceled`/`unpaid`, forced true for `active`, and left unchanged for every
other status. -/
def applySubscriptionUpdated (now : Int) (u : SubUpdate) (p : Profile) : Profile :=
  let isCanceled := u.status == "canceled" || u.status == "unpaid"
  { p with
    subscription_status := some u.status,
    stripe_subscription_id := jsNullable u.id,
    plan_id := u.plan_id,
    current_period_end := match u.current_period_end with
      | some e => some e
      | none => p.current_period_end,
    is_pro := if isCanceled then false
      else if u.status == "active" then true
      else p.is_pro,
    updated_at := now }

/-- Profile write of the `invoice.payment_succeeded` branch. -/
def applyInvoicePaymentSucceeded (now : Int) (invoiceSubscription : Option String)
    (p : Profile) : Profile :=
  { p with
    subscription_status := some ("active"),
    is_pro := true,
    stripe_subscription_id := jsNullable invoiceSubscription,
    updated_at := now }

/-- User resolution of the webhook `checkout.session.completed` branch:
`session.client_reference_id || session.metadata?.user_id`, then — only if
that is falsy and a checkout email exists — a case-sensitive `.eq("email")`
lookup.  Returns `none` when the final `userId` is falsy. -/
def checkoutResolvedUser (clientReferenceId metadataUserId checkoutEmail : Option String)
    (store : List Profile) : Option String :=
  let u0 := jsOrOpt clientReferenceId metadataUserId
  let u1 := if !optTruthy u0 && optTruthy checkoutEmail then
      match findByEmailExact store (checkoutEmail.getD ("")) with
      | some q => if q.id != "" then some q.id else u0
      | none => u0
    else u0
  if optTruthy u1 then u1 else none

/-- User resolution of a Stripe webhook event: the checkout branch uses
`checkoutResolvedUser`; every other branch looks up the first profile whose
stored `stripe_customer_id` equals the event's customer id.  Returns the
resolved profile id, `none` when the event matches no local user. -/
def stripeResolve (e : StripeEvent) (store : List Profile) : Option String :=
  match e with
  | StripeEvent.checkoutCompleted ref meta email _ _ _ =>
      checkoutResolvedUser ref meta email store
  | StripeEvent.invoicePaymentFailed c _ =>
      (c.bind (findByCustomer store)).map (fun p => p.id)
  | StripeEvent.subscriptionDeleted c _ _ =>
      (c.bind (findByCustomer store)).map (fun p => p.id)
  | StripeEvent.subscriptionUpdated c _ =>
      (c.bind (findByCustomer store)).map (fun p => p.id)
  | StripeEvent.invoicePaymentSucceeded c _ =>
      (c.bind (findByCustomer store)).map (fun p => p.id)
  | StripeEvent.otherEvent => none

/-- Webhook JSON response fields the claims are about. -/
structure WebhookResponse where
  status : Nat
  matched : Option Bool := none
  ignored : Bool := false
  deriving Repr, DecidableEq

/-- The Stripe webhook handler after signature verification: resolve the
user for the event's branch, apply the branch's profile write, acknowledge
with HTTP 200 (an unmatched checkout event answers `matched: false`, other
unmatched events fall through to the plain acknowledgement). -/
def applyStripeWebhook (now : Int) (e : StripeEvent) (store : List Profile) :
    List Profile × WebhookResponse :=
  match e with
  | StripeEvent.checkoutCompleted ref meta email customer subscription subData =>
      match checkoutResolvedUser ref meta email store with
      | none => (store, { status := 200, matched := some false })
      | some uid =>
          (upsertById store uid (applyCheckoutCompleted now email customer subscription subData),
           { status := 200 })
  | StripeEvent.invoicePaymentFailed c sub =>
      match (c.bind (findByCustomer store)).map (fun p => p.id) with
      | none => (store, { status := 200 })
      | some uid => (updateById store uid (applyInvoicePaymentFailed now sub), { status := 200 })
  | StripeEvent.subscriptionDeleted c subId planId =>
      match (c.bind (findByCustomer store)).map (fun p => p.id) with
      | none => (store, { status := 200 })
      | some uid => (updateById store uid (applySubscriptionDeleted now subId planId), { status := 200 })
  | StripeEvent.subscriptionUpdated c u =>
      match (c.bind (findByCustomer store)).map (fun p => p.id) with
      | none => (store, { status := 200 })
      | some uid => (updateById store uid (applySubscriptionUpdated now u), { status := 200 })
  | StripeEvent.invoicePaymentSucceeded c sub =>
      match (c.bind (findByCustomer store)).map (fun p => p.id) with
      | none => (store, { status := 200 })
      | some uid => (updateById store uid (applyInvoicePaymentSucceeded now sub), { status := 200 })
  | StripeEvent.otherEvent => (store, { status := 200 })

/-! ## Lemon webhook (`src/unnamed/part_007`) -/

/-- Canonical entitlement tuple produced by `mapSubscriptionState`. -/
structure MappedState where
  subscription_status : String
  is_pro : Bool
  current_period_end : Option Int
  deriving Repr, DecidableEq

/-- `mapSubscriptionState(status, attrs)` from the Lemon webhook.  The three
timestamp inputs model `toIsoOrNull(attrs.renews_at)` etc. (`none` for a
missing or unparseable value); their JS `||` chain is `Option.orElse`
because a parsed ISO string is always truthy.  `endsAtMs` is `0` when no
timestamp is present, and `hasFutureAccess` requires it to be non-zero
(JS truthiness) and strictly after `now`. -/
def mapSubscriptionState (now : Int) (status : Option String)
    (renewsAt endsAt trialEndsAt : Option Int) : MappedState :=
  let raw := jsToLower (status.getD (""))
  let endsAtIso : Option Int := (renewsAt <|> endsAt) <|> trialEndsAt
  let endsAtMs : Int := endsAtIso.getD 0
  let hasFutureAccess := endsAtMs != 0 && decide (endsAtMs > now)
  if raw == "active" then
    { subscription_status := "active", is_pro := true, current_period_end := endsAtIso }
  else if raw == "on_trial" || raw == "trialing" then
    { subscription_status := "trialing", is_pro := true, current_period_end := endsAtIso }
  else if (raw == "cancelled" || raw == "canceled") && hasFutureAccess then
    { subscription_status := "active", is_pro := true, current_period_end := endsAtIso }
  else
    { subscription_status := if raw == "" then "none" else raw, is_pro := false,
      current_period_end := endsAtIso }

/-- A signature-verified Lemon webhook payload, restricted to the fields the
handler reads.  `customUserId` models `custom_data.user_id ||
custom_data.userId || attrs.user_id || null` and `email` the analogous email
chain; `productId` models `String(attrs.product_id ||
attrs.first_order_item?.product_id || "")`. -/
structure LemonEvent where
  eventName : String
  dataType : String
  customUserId : Option String := none
  email : Option String := none
  status : Option String := none
  renewsAt : Option Int := none
  endsAt : Option Int := none
  trialEndsAt : Option Int := none
  variantId : Option String := none
  productId : String := ""
  deriving Repr, DecidableEq

/-- `resolveUserId` from the Lemon webhook: the explicit custom user id if
truthy, otherwise a case-insensitive email lookup.  Returns `none` when the
final `userId` is falsy. -/
def resolveLemonUser (store : List Profile) (ev : LemonEvent) : Option String :=
  let userId := ev.customUserId
  let userId := if !optTruthy userId && optTruthy ev.email then
      match findByEmailCI store (ev.email.getD ("")) with
      | some q => if q.id != "" then some q.id else userId
      | none => userId
    else userId
  if optTruthy userId then userId else none

/-- The `updatePayload` upsert row of the Lemon webhook: the mapped
entitlement tuple plus email, plan id (`lemon:<variantId>` or `lemon`) and
timestamp. -/
def lemonProfileWrite (now : Int) (ev : LemonEvent) (p : Profile) : Profile :=
  let mapped := mapSubscriptionState now ev.status ev.renewsAt ev.endsAt ev.trialEndsAt
  let variantId := match ev.variantId with
    | some v => v
    | none => ""
  { p with
    email := ev.email,
    is_pro := mapped.is_pro,
    subscription_status := some mapped.subscription_status,
    current_period_end := mapped.current_period_end,
    plan_id := some (if variantId != "" then "lemon:" ++ variantId else "lemon"),
    updated_at := now }

/-- The Lemon webhook handler after signature verification and JSON
parsing: ignore non-subscription events and product mismatches, resolve the
user, then upsert the entitlement tuple produced by
`mapSubscriptionState`.  `allowedProductId` models `getEnv("LEMON_PRODUCT_ID")`
(empty when unset). -/
def applyLemonWebhook (now : Int) (allowedProductId : String) (ev : LemonEvent)
    (store : List Profile) : List Profile × WebhookResponse :=
  let eventName := jsToLower ev.eventName
  let dataType := jsToLower ev.dataType
  let looksSubscriptionEvent := jsStartsWith eventName ("subscription_") || dataType == "subscriptions"
  if !looksSubscriptionEvent then (store, { status := 200, ignored := true })
  else if allowedProductId != "" && ev.productId != "" && allowedProductId != ev.productId then
    (store, { status := 200, ignored := true })
  else
    match resolveLemonUser store ev with
    | none => (store, { status := 200, matched := some false })
    | some uid =>
        (upsertById store uid (lemonProfileWrite now ev),
         { status := 200, matched := some true })

/-! ## On-demand sync (`profile.mjs`) and checkout landing (`stripe-success.mjs`) -/

/-- Canonical pair produced by `normalizeSubscriptionState` in
`profile.mjs`. -/
structure NormalizedState where
  status : String
  isPro : Bool
  deriving Repr, DecidableEq

/-- `normalizeSubscriptionState(status)` from `profile.mjs`:
lowercase the provider status, entitle exactly `active`/`trialing`, map an
empty status to `none`. -/
def normalizeSubscriptionState (status : Option String) : NormalizedState :=
  let s := jsToLower (status.getD (""))
  { status := if s == "" then "none" else s,
    isPro := s == "active" || s == "trialing" }

/-- A retrieved Stripe subscription object, restricted to the fields read by
`profile.mjs` and `stripe-success.mjs` (`current_period_end` is `none` when
absent or `0`, `planId` models `items?.data?.[0]?.price?.id || null`). -/
structure StripeSubInfo where
  status : Option String := none
  current_period_end : Option Int := none
  planId : Option String := none
  deriving Repr, DecidableEq

/-- Profile write of `syncStripeStatusIfNeeded` in `profile.mjs`, applied
when a subscription object was retrieved. -/
def applyStripeSync (now : Int) (stripeCustomerId : Option String)
    (sub : StripeSubInfo) (subId : Option String) (p : Profile) : Profile :=
  let normalized := normalizeSubscriptionState sub.status
  { p with
    subscription_status := some normalized.status,
    is_pro := normalized.isPro,
    stripe_customer_id := jsNullable (jsOrOpt stripeCustomerId p.stripe_customer_id),
    stripe_subscription_id := jsNullable (jsOrOpt subId p.stripe_subscription_id),
    plan_id := jsNullable (jsOrOpt sub.planId p.plan_id),
    current_period_end := match sub.current_period_end with
      | some e => some e
      | none => p.current_period_end,
    updated_at := now }

/-- A retrieved checkout session, restricted to the fields read by
`stripe-success.mjs` (`email` models `customer_details?.email ||
customer_email || null`). -/
structure CheckoutSession where
  clientReferenceId : Option String := none
  metadataUserId : Option String := none
  email : Option String := none
  customer : Option String := none
  subscription : Option String := none
  deriving Repr, DecidableEq

/-- User resolution of `stripe-success.mjs`: reference id / metadata user
id, then case-insensitive email, then stored customer id, then stored
subscription id — first truthy wins. -/
def resolveSuccessUser (session : CheckoutSession) (store : List Profile) :
    Option String :=
  let u0 := jsNullable (jsOrOpt session.clientReferenceId session.metadataUserId)
  let u1 := if !optTruthy u0 && optTruthy session.email then
      match findByEmailCI store (session.email.getD ("")) with
      | some q => if q.id != "" then some q.id else u0
      | none => u0
    else u0
  let u2 := if !optTruthy u1 && optTruthy session.customer then
      match findByCustomer store (session.customer.getD ("")) with
      | some q => if q.id != "" then some q.id else u1
      | none => u1
    else u1
  let u3 := if !optTruthy u2 && optTruthy session.subscription then
      match findBySubscription store (session.subscription.getD ("")) with
      | some q => if q.id != "" then some q.id else u2
      | none => u2
    else u2
  if optTruthy u3 then u3 else none

/-- Follows the spec's words (claim C6), for comparison with the
implementations: resolve the local user by trying, in order and stopping at
the first match, the explicit reference id carried through the checkout
flow, a case-insensitive email lookup, a profile whose stored customer id
equals the provider's customer id, and a profile whose stored subscription
id equals the provider's subscription id. -/
def specUserResolutionOrder (referenceId email customerId subscriptionId : Option String)
    (store : List Profile) : Option String :=
  let byEmail := if optTruthy email then
      (findByEmailCI store (email.getD (""))).map (fun p => p.id) else none
  let byCustomer := if optTruthy customerId then
      (findByCustomer store (customerId.getD (""))).map (fun p => p.id) else none
  let bySubscription := if optTruthy subscriptionId then
      (findBySubscription store (subscriptionId.getD (""))).map (fun p => p.id) else none
  if optTruthy referenceId then referenceId
  else match byEmail with
    | some u => some u
    | none => match byCustomer with
      | some u => some u
      | none => bySubscription

/-- Entitlement tuple computed by `stripe-success.mjs` lines 89-105:
defaults `("active", true)` and, when a subscription object was retrieved,
the lowercased status with `active`/`trialing` entitling. -/
def successEntitlement (retrieved : Option StripeSubInfo) : NormalizedState × Option Int × Option String :=
  match retrieved with
  | none => ({ status := "active", isPro := true }, none, none)
  | some s =>
      let st := jsToLower (jsOrStr (s.status.getD ("")) ("active"))
      ({ status := st, isPro := st == "active" || st == "trialing" },
       s.current_period_end, s.planId)

/-! ## Resume ingestion (`resume-upload.mjs`) -/

/-- Wrap an integer to JS 32-bit signed (`| 0` / `& x` coercion). -/
def toInt32 (n : Int) : Int := ((n + 2147483648) % 4294967296) - 2147483648

/-- One step of `computeHash`: `hash = ((hash << 5) - hash) + char` with the
shift wrapping to 32 bits, followed by the `hash & hash` coercion. -/
def hashStep (h : Int) (c : Nat) : Int := toInt32 (toInt32 (h * 32) - h + c)

/-- Digit character for base-36 (`0-9a-z`), as produced by JS
`Number.prototype.toString(36)`. -/
def base36Digit (n : Nat) : Char :=
  if n < 10 then Char.ofNat (48 + n) else Char.ofNat (87 + n)

/-- Fuel-indexed base-36 digit accumulator (structural recursion so the
kernel can evaluate it; fuel `n + 1` always suffices). -/
def natToBase36Core : Nat → Nat → List Char → List Char
  | 0, _, acc => acc
  | fuel + 1, n, acc =>
      if n == 0 then acc
      else natToBase36Core fuel (n / 36) (base36Digit (n % 36) :: acc)

/-- JS `Math.abs(hash).toString(36)`. -/
def natToBase36 (n : Nat) : String :=
  if n == 0 then "0" else String.mk (natToBase36Core (n + 1) n [])

/-- `computeHash` from `resume-upload.mjs`: the 32-bit rolling hash over the
char codes, rendered as `"h" + abs(hash).toString(36) + "_" + length`. -/
def computeHash (text : String) : String :=
  let h := text.data.foldl (fun h c => hashStep h c.toNat) 0
  "h" ++ natToBase36 h.natAbs ++ "_" ++ toString text.length

/-- JS `s.substring(0, n)`. -/
def jsSubstring (s : String) (n : Nat) : String := String.mk (s.data.take n)

/-- `MAX_SUMMARY_CHARS` from `resume-upload.mjs`. -/
def MAX_SUMMARY_CHARS : Nat := 900

/-- `SCANNED_THRESHOLD` from `resume-upload.mjs`. -/
def SCANNED_THRESHOLD : Nat := 200

/-- JSON response of the resume-upload handler, restricted to the fields
the claims are about. -/
structure ResumeResp where
  status : Nat
  error : Option String := none
  summary : Option String := none
  cached : Option Bool := none
  raw : Option Bool := none
  deriving Repr, DecidableEq

/-- Result of one resume-upload request: the JSON response, whether the
generation gateway was invoked, and the resulting profile row. -/
structure ResumeStep where
  resp : ResumeResp
  calledGateway : Bool
  profile : Profile
  deriving Repr, DecidableEq

/-- The `/api/resume-upload` handler (`resume-upload.mjs`), from the point
where the caller is authenticated, the file was accepted and `extractedText`
was extracted from the PDF: scanned-document rejection, fingerprint cache
check, summary request (`ai.ok` false covers both a non-success HTTP status
and a transport error, which return the same degraded response), and
persistence of the fresh fingerprint and summary. -/
def resumeUpload (now : Int) (p : Profile) (extractedText : String)
    (ai : FetchResult) : ResumeStep :=
  if extractedText.length < SCANNED_THRESHOLD then
    { resp := { status := 422, error := some ("scanned_pdf") },
      calledGateway := false, profile := p }
  else
    let resumeHash := computeHash extractedText
    if p.resume_hash == some resumeHash && optTruthy p.resume_summary then
      { resp := { status := 200, summary := p.resume_summary, cached := some true },
        calledGateway := false, profile := p }
    else if !ai.ok then
      { resp := { status := 200, summary := some (jsSubstring extractedText MAX_SUMMARY_CHARS),
                  raw := some true },
        calledGateway := true, profile := p }
    else
      let s0 := (jsOrStr ai.text ("")).trim
      let summary := if s0 == "" then jsSubstring extractedText MAX_SUMMARY_CHARS else s0
      { resp := { status := 200, summary := some summary, cached := some false },
        calledGateway := true,
        profile := { p with
          resume_hash := some resumeHash,
          resume_summary := some summary,
          resume_updated_at := some now,
          updated_at := now } }

/-! ## Entitlement invariant -/

/-- Does a stored `subscription_status` value entitle the user, i.e. is it
exactly `active` or `trialing`? -/
def statusEntitles (s : Option String) : Bool :=
  s == some ("active") || s == some ("trialing")

/-- The spec's profile invariant: `is_pro` is true iff `subscription_status`
is `active` or `trialing`. -/
def entitlementInvariant (p : Profile) : Prop :=
  p.is_pro = statusEntitles p.subscription_status

/-- A profile with its `updated_at` timestamp cleared: equality after
`clearTimestamp` is equality of every field other than `updated_at`. -/
def clearTimestamp (p : Profile) : Profile := { p with updated_at := 0 }

/-! ## Claims C1 and C2: the generate quota gate -/

/-- Claim C1, counterexample: a free profile with `generations_used = 3`
satisfies the claim's deny condition, yet the current `/api/generate`
handler does not deny with HTTP 403 / `limit_reached` — it proceeds to
generation and answers 200 with no error kind. -/
theorem c1_counterexample :
    let p : Profile := { defaultProfile ("u1") with generations_used := 3 }
    isSubscribedCurrent p = false ∧ p.generations_used ≥ FREE_GENERATION_LIMIT ∧
    (currentGenerateHandler 0 p ("jd") ("resume text") ("neutral")
        { ok := true, text := "LETTER" } { ok := false } false).1.status = 200 ∧
    (currentGenerateHandler 0 p ("jd") ("resume text") ("neutral")
        { ok := true, text := "LETTER" } { ok := false } false).1.error = none := by
  decide

/-- Claim C1, amended: the current `/api/generate` handler never answers
HTTP 403 (its statuses are 200/400/502); instead, a successful response is
preview-locked exactly under the claim's condition
`!(is_pro ∧ status ∈ {active, trialing}) ∧ generations_used ≥ 3`.  The
legacy handler variant is the one that denies with HTTP 403 /
`limit_reached`, and it does so iff `!(is_pro ∧ status = "active")` (no
`trialing`) `∧ generations_used ≥ 3`. -/
theorem c1_amended :
    (∀ now p jd re tn b d allow,
        (currentGenerateHandler now p jd re tn b d allow).1.status = 200 ∨
        (currentGenerateHandler now p jd re tn b d allow).1.status = 400 ∨
        (currentGenerateHandler now p jd re tn b d allow).1.status = 502) ∧
    (∀ now p jd re tn b d allow,
        (currentGenerateHandler now p jd re tn b d allow).1.locked =
          (if (currentGenerateHandler now p jd re tn b d allow).1.status = 200
           then some (lockPreviewOnly p) else none)) ∧
    (∀ p, lockPreviewOnly p =
        (!isSubscribedCurrent p && decide (p.generations_used ≥ FREE_GENERATION_LIMIT))) ∧
    (∀ now p jd re tn b,
        (legacyGenerateHandler now p jd re tn b).1 =
          { status := 403, error := some ("limit_reached"),
            generations_used := some p.generations_used }
        ↔ (isSubscribedLegacy p = false ∧ p.generations_used ≥ FREE_GENERATION_LIMIT)) := by
  refine ⟨?_, ?_, ?_, ?_⟩
  · intro now p jd re tn b d allow
    simp only [currentGenerateHandler]
    split_ifs <;> simp
  · intro now p jd re tn b d allow
    simp only [currentGenerateHandler]
    split_ifs <;> simp_all
  · intro p
    have h : (freeRemaining p ≤ 0) ↔ (p.generations_used ≥ FREE_GENERATION_LIMIT) := by
      simp only [freeRemaining, FREE_GENERATION_LIMIT]
      omega
    simp [lockPreviewOnly, decide_eq_decide.mpr h]
  · intro now p jd re tn b
    simp only [legacyGenerateHandler]
    have h : (freeRemaining p ≤ 0) ↔ (p.generations_used ≥ FREE_GENERATION_LIMIT) := by
      simp only [freeRemaining, FREE_GENERATION_LIMIT]
      omega
    split_ifs with h1 h2 h3 <;>
      simp_all [HandlerResponse.mk.injEq, Bool.and_eq_true, Bool.not_eq_true']

/-- Claim C2, counterexample: under the current `/api/generate` handler a
free user with `generations_used = 3` is not quota-denied; a successful
generation increments the counter to 4, so `generations_used` is changed by
the request. -/
theorem c2_counterexample :
    let p : Profile := { defaultProfile ("u2") with generations_used := 3 }
    p.is_pro = false ∧ p.generations_used ≥ 3 ∧
    (currentGenerateHandler 0 p ("jd") ("resume text") ("neutral")
        { ok := true, text := "LETTER" } { ok := false } false).2.generations_used = 4 ∧
    (currentGenerateHandler 0 p ("jd") ("resume text") ("neutral")
        { ok := true, text := "LETTER" } { ok := false } false).2.generations_used
      ≠ p.generations_used := by
  decide

/-- Claim C2, amended: for a user with `is_pro = false` and
`generations_used ≥ 3`, the current handler proceeds and a successful
generation increments `generations_used` by one, while the legacy handler
variant denies the request with 403 / `limit_reached` and leaves the profile
row entirely unchanged. -/
theorem c2_amended :
    ∀ now p jd re tn b d allow,
      p.is_pro = false → p.generations_used ≥ FREE_GENERATION_LIMIT →
      jd ≠ "" → re ≠ "" → b.ok = true → b.text ≠ "" →
      (currentGenerateHandler now p jd re tn b d allow).2.generations_used
          = p.generations_used + 1 ∧
      (legacyGenerateHandler now p jd re tn b).2 = p ∧
      (legacyGenerateHandler now p jd re tn b).1.status = 403 ∧
      (legacyGenerateHandler now p jd re tn b).1.error = some ("limit_reached") := by
  intro now p jd re tn b d allow hpro hused hjd hre hok htext
  have hfree : decide (freeRemaining p ≤ 0) = true := by
    simp only [freeRemaining, FREE_GENERATION_LIMIT, decide_eq_true_eq]
    simp only [FREE_GENERATION_LIMIT] at hused
    omega
  have hleg : isSubscribedLegacy p = false := by
    simp [isSubscribedLegacy, hpro]
  constructor
  · simp only [currentGenerateHandler, gatewayRun, runPrimaryAndDirect,
      applyLocalFallback, hok, htext]
    simp [hjd, hre, htext]
    split_ifs <;> rfl
  · simp [legacyGenerateHandler, hleg, hfree]

/-- Claim C2, witness for the amended theorem. -/
theorem c2_witness :
    (currentGenerateHandler 0 { defaultProfile ("u2w") with generations_used := 3 }
        ("jd") ("re") ("tn") { ok := true, text := "LETTER" } { ok := false } false).2.generations_used
        = 4 ∧
    (legacyGenerateHandler 0 { defaultProfile ("u2w") with generations_used := 3 }
        ("jd") ("re") ("tn") { ok := true, text := "LETTER" }).2
        = { defaultProfile ("u2w") with generations_used := 3 } ∧
    (legacyGenerateHandler 0 { defaultProfile ("u2w") with generations_used := 3 }
        ("jd") ("re") ("tn") { ok := true, text := "LETTER" }).1.status = 403 ∧
    (legacyGenerateHandler 0 { defaultProfile ("u2w") with generations_used := 3 }
        ("jd") ("re") ("tn") { ok := true, text := "LETTER" }).1.error
        = some ("limit_reached") :=
  c2_amended 0 _ ("jd") ("re") ("tn") _ { ok := false } false rfl (by decide)
    (by decide) (by decide) rfl (by decide)

/-! ## Claims C3 and C4: reconciliation state mapping -/

/-- Claim C3, counterexample: a `customer.subscription.updated` webhook
event with provider status `trialing` applied to a free profile leaves
`is_pro = false` while storing `subscription_status = "trialing"`, violating
the invariant `is_pro ↔ status ∈ {active, trialing}`. -/
theorem c3_counterexample :
    ¬ entitlementInvariant
      (applySubscriptionUpdated 0
        { status := "trialing", id := none, plan_id := none, current_period_end := none }
        (defaultProfile ("u3"))) := by
  simp [entitlementInvariant, applySubscriptionUpdated, statusEntitles, defaultProfile]

/-- Claim C3, amended: every reconciliation write establishes the invariant
`is_pro ↔ subscription_status ∈ {active, trialing}` — checkout completion,
invoice payment failure/success, subscription deletion, the Lemon state
mapping, the profile-sync normalization and the checkout-landing
entitlement — except the `customer.subscription.updated` branch, which only
forces `is_pro` for incoming status `active`/`canceled`/`unpaid` and
otherwise leaves it unchanged, so after that write the invariant holds iff
the incoming status is one of those three or the prior `is_pro` already
matched the incoming status. -/
theorem c3_amended :
    (∀ now email customer sub sd p,
        entitlementInvariant (applyCheckoutCompleted now email customer sub sd p)) ∧
    (∀ now sub p, entitlementInvariant (applyInvoicePaymentFailed now sub p)) ∧
    (∀ now subId planId p, entitlementInvariant (applySubscriptionDeleted now subId planId p)) ∧
    (∀ now sub p, entitlementInvariant (applyInvoicePaymentSucceeded now sub p)) ∧
    (∀ now st r e t, (mapSubscriptionState now st r e t).is_pro =
        ((mapSubscriptionState now st r e t).subscription_status == "active" ||
         (mapSubscriptionState now st r e t).subscription_status == "trialing")) ∧
    (∀ st, (normalizeSubscriptionState st).isPro =
        ((normalizeSubscriptionState st).status == "active" ||
         (normalizeSubscriptionState st).status == "trialing")) ∧
    (∀ ret, (successEntitlement ret).1.isPro =
        ((successEntitlement ret).1.status == "active" ||
         (successEntitlement ret).1.status == "trialing")) ∧
    (∀ now cid sub subId p, entitlementInvariant (applyStripeSync now cid sub subId p)) ∧
    (∀ now u p, entitlementInvariant (applySubscriptionUpdated now u p) ↔
        (u.status = "active" ∨ u.status = "canceled" ∨ u.status = "unpaid" ∨
         p.is_pro = (u.status == "active" || u.status == "trialing"))) := by
  refine ⟨?_, ?_, ?_, ?_, ?_, ?_, ?_, ?_, ?_⟩
  · intro now email customer sub sd p
    simp [entitlementInvariant, applyCheckoutCompleted, statusEntitles]
  · intro now sub p
    simp [entitlementInvariant, applyInvoicePaymentFailed, statusEntitles]
  · intro now subId planId p
    simp [entitlementInvariant, applySubscriptionDeleted, statusEntitles]
  · intro now sub p
    simp [entitlementInvariant, applyInvoicePaymentSucceeded, statusEntitles]
  · intro now st r e t
    simp only [mapSubscriptionState]
    split_ifs <;> simp_all
  · intro st
    simp only [normalizeSubscriptionState]
    by_cases h : jsToLower (st.getD ("")) = "" <;> simp [h]
  · intro ret
    cases ret with
    | none => decide
    | some s =>
        simp only [successEntitlement]
  · intro now cid sub subId p
    simp only [entitlementInvariant, applyStripeSync, normalizeSubscriptionState,
      statusEntitles]
    by_cases h : jsToLower (sub.status.getD ("")) = "" <;> simp [h]
  · intro now u p
    simp only [entitlementInvariant, applySubscriptionUpdated, statusEntitles]
    by_cases h1 : u.status = "canceled" <;> by_cases h2 : u.status = "unpaid" <;>
      by_cases h3 : u.status = "active" <;> by_cases h4 : u.status = "trialing" <;>
      simp_all

/-- Claim C4, counterexample: the Lemon mapping passes the `cancelled`
spelling through verbatim instead of normalizing it to `canceled`, and the
Stripe `customer.subscription.updated` branch applies no grace period — a
`canceled` status with a future period end still yields `is_pro = false`. -/
theorem c4_counterexample :
    (mapSubscriptionState 1000 (some ("cancelled")) none none none).subscription_status
        = "cancelled" ∧
    (mapSubscriptionState 1000 (some ("cancelled")) none none none).subscription_status
        ≠ "canceled" ∧
    (mapSubscriptionState 1000 (some ("cancelled")) none none none).is_pro = false ∧
    (applySubscriptionUpdated 0
        { status := "canceled", id := none, plan_id := none, current_period_end := some 999999 }
        { defaultProfile ("u4") with
          is_pro := true,
          subscription_status := some ("active") }).is_pro = false := by
  decide

/-- Claim C4, amended: only the Lemon reconciliation path has a grace
period: a lowercased `canceled`/`cancelled` status maps to
`(active, is_pro = true)` when a parsed period-end timestamp is non-zero and
strictly after `now`, and otherwise to the lowercased provider status passed
through verbatim (`canceled` or `cancelled` as given) with
`is_pro = false`.  The Stripe webhook path applies no grace period:
`customer.subscription.updated` with status `canceled`/`unpaid` and
`customer.subscription.deleted` always clear `is_pro`. -/
theorem c4_amended :
    (∀ now st r e t,
      (jsToLower (st.getD ("")) = "canceled" ∨ jsToLower (st.getD ("")) = "cancelled") →
      mapSubscriptionState now st r e t =
        (if (((r <|> e) <|> t).getD 0 != 0 && decide (((r <|> e) <|> t).getD 0 > now)) then
          { subscription_status := "active",
            is_pro := true,
            current_period_end := (r <|> e) <|> t }
        else
          { subscription_status := jsToLower (st.getD ("")),
            is_pro := false,
            current_period_end := (r <|> e) <|> t })) ∧
    (∀ now u p, (u.status = "canceled" ∨ u.status = "unpaid") →
        (applySubscriptionUpdated now u p).is_pro = false) ∧
    (∀ now subId planId p, (applySubscriptionDeleted now subId planId p).is_pro = false) := by
  refine ⟨?_, ?_, ?_⟩
  · intro now st r e t h
    simp only [mapSubscriptionState]
    obtain h | h := h <;> rw [h] <;> split_ifs <;> simp_all
  · intro now u p h
    simp only [applySubscriptionUpdated]
    obtain h | h := h <;> simp [h]
  · intro now subId planId p
    rfl

/-- Claim C4, witness for the amended theorem. -/
theorem c4_witness :
    mapSubscriptionState 10 (some ("canceled")) none none none =
      { subscription_status := "canceled", is_pro := false, current_period_end := none } ∧
    (applySubscriptionUpdated 10
      { status := "unpaid", id := none, plan_id := none, current_period_end := none }
      (defaultProfile ("u4w"))).is_pro = false := by
  constructor
  · have h := c4_amended.1 10 (some ("canceled")) none none none (by decide)
    simpa using h
  · exact c4_amended.2.1 10 _ _ (Or.inr rfl)

/-! ## Claims C6, C7 and C8 -/

/-- JS truthiness of a present string value. -/
theorem optTruthy_some (s : String) : optTruthy (some s) = (s != "") := rfl

/-- JS truthiness of a null value. -/
theorem optTruthy_none : optTruthy (none : Option String) = false := rfl

/-- Claim C6, counterexample: a signature-verified webhook
`checkout.session.completed` event with no reference id, an email that
matches a stored profile only case-insensitively, and a customer id equal to
that profile's stored customer id.  The claimed resolution order finds the
user (by email case-insensitively, and by customer id), but the webhook
handler resolves nobody and writes nothing: its email lookup is
case-sensitive and it never falls back to the customer or subscription id. -/
theorem c6_counterexample :
    let store : List Profile := [{ defaultProfile ("u6") with
      email := some ("User@Example.com"), stripe_customer_id := some ("cus_1") }]
    specUserResolutionOrder none (some ("user@example.com")) (some ("cus_1")) none store
        = some ("u6") ∧
    checkoutResolvedUser none none (some ("user@example.com")) store = none ∧
    (applyStripeWebhook 0
        (StripeEvent.checkoutCompleted none none (some ("user@example.com"))
          (some ("cus_1")) none none) store).1 = store ∧
    (applyStripeWebhook 0
        (StripeEvent.checkoutCompleted none none (some ("user@example.com"))
          (some ("cus_1")) none none) store).2.matched = some false := by
  decide

/-- Claim C6, amended: only the checkout-landing path
(`stripe-success.mjs`) implements the full claimed order — reference id,
then case-insensitive email, then stored customer id, then stored
subscription id, first match wins (stated as equality with the spec's
resolution order, for stores whose profile ids are truthy).  The webhook
`checkout.session.completed` path checks only the reference id and a
case-sensitive exact email (so an event whose email matches no stored email
exactly resolves nobody even when a customer id matches), and the Lemon
webhook checks only the explicit custom user id and a case-insensitive
email. -/
theorem c6_amended :
    (∀ session store, store.all (fun p => p.id != "") = true →
        resolveSuccessUser session store =
          specUserResolutionOrder
            (jsNullable (jsOrOpt session.clientReferenceId session.metadataUserId))
            session.email session.customer session.subscription store) ∧
    (∀ e store, store.all (fun p => !(p.email == some e)) = true →
        checkoutResolvedUser none none (some e) store = none) ∧
    (∀ store ev, ev.customUserId = none → ev.email = none →
        resolveLemonUser store ev = none) := by
  refine ⟨?_, ?_, ?_⟩
  · intro session store hids
    simp only [resolveSuccessUser, specUserResolutionOrder]
    by_cases h0 : optTruthy (jsNullable (jsOrOpt session.clientReferenceId session.metadataUserId))
    · simp [h0]
    · have h0n : jsNullable (jsOrOpt session.clientReferenceId session.metadataUserId) = none := by
        simp only [jsNullable]
        split_ifs with ht
        · exact absurd (by simpa [jsNullable, ht] using ht) h0
        · rfl
      rw [h0n] at h0 ⊢
      by_cases he : optTruthy session.email
      · cases hf : findByEmailCI store (session.email.getD ("")) with
        | some q =>
            have hq : (q.id != "") = true :=
              List.all_eq_true.mp hids q (List.mem_of_find?_eq_some hf)
            simp [he, hf, hq, optTruthy_some, optTruthy_none]
        | none =>
            simp only [he, hf, optTruthy_none, Bool.not_false, Bool.true_and, if_true]
            by_cases hc : optTruthy session.customer
            · cases hg : findByCustomer store (session.customer.getD ("")) with
              | some q =>
                  have hq : (q.id != "") = true :=
                    List.all_eq_true.mp hids q (List.mem_of_find?_eq_some hg)
                  simp [hc, hg, hq, optTruthy_some, optTruthy_none]
              | none =>
                  by_cases hs : optTruthy session.subscription
                  · cases hh : findBySubscription store (session.subscription.getD ("")) with
                    | some q =>
                        have hq : (q.id != "") = true :=
                          List.all_eq_true.mp hids q (List.mem_of_find?_eq_some hh)
                        simp [hc, hg, hs, hh, hq, optTruthy_some, optTruthy_none]
                    | none => simp [hc, hg, hs, hh, optTruthy_some, optTruthy_none]
                  · simp [hc, hg, hs, optTruthy_some, optTruthy_none]
            · by_cases hs : optTruthy session.subscription
              · cases hh : findBySubscription store (session.subscription.getD ("")) with
                | some q =>
                    have hq : (q.id != "") = true :=
                      List.all_eq_true.mp hids q (List.mem_of_find?_eq_some hh)
                    simp [hc, hs, hh, hq, optTruthy_some, optTruthy_none]
                | none => simp [hc, hs, hh, optTruthy_some, optTruthy_none]
              · simp [hc, hs, optTruthy_some, optTruthy_none]
      · simp only [he, optTruthy_none, Bool.not_false, Bool.true_and, if_false]
        by_cases hc : optTruthy session.customer
        · cases hg : findByCustomer store (session.customer.getD ("")) with
          | some q =>
              have hq : (q.id != "") = true :=
                List.all_eq_true.mp hids q (List.mem_of_find?_eq_some hg)
              simp [hc, hg, hq, optTruthy_some, optTruthy_none]
          | none =>
              by_cases hs : optTruthy session.subscription
              · cases hh : findBySubscription store (session.subscription.getD ("")) with
                | some q =>
                    have hq : (q.id != "") = true :=
                      List.all_eq_true.mp hids q (List.mem_of_find?_eq_some hh)
                    simp [hc, hg, hs, hh, hq, optTruthy_some, optTruthy_none]
                | none => simp [hc, hg, hs, hh, optTruthy_some, optTruthy_none]
              · simp [hc, hg, hs, optTruthy_some, optTruthy_none]
        · by_cases hs : optTruthy session.subscription
          · cases hh : findBySubscription store (session.subscription.getD ("")) with
            | some q =>
                have hq : (q.id != "") = true :=
                  List.all_eq_true.mp hids q (List.mem_of_find?_eq_some hh)
                simp [hc, hs, hh, hq, optTruthy_some, optTruthy_none]
            | none => simp [hc, hs, hh, optTruthy_some, optTruthy_none]
          · simp [hc, hs, optTruthy_some, optTruthy_none]
  · intro e store hall
    simp only [checkoutResolvedUser, findByEmailExact]
    have hnone : store.find? (fun p => p.email == some e) = none := by
      rw [List.find?_eq_none]
      intro q hq
      have := List.all_eq_true.mp hall q hq
      simpa using this
    simp [hnone, jsOrOpt, optTruthy_some, optTruthy_none]
  · intro store ev h1 h2
    simp [resolveLemonUser, h1, h2, optTruthy_none]

/-- Claim C6, witness for the amended theorem. -/
theorem c6_witness :
    resolveSuccessUser
        { email := some ("a@b.c") }
        [{ defaultProfile ("u6w") with email := some ("A@B.C") }] =
      specUserResolutionOrder none (some ("a@b.c")) none none
        [{ defaultProfile ("u6w") with email := some ("A@B.C") }] ∧
    checkoutResolvedUser none none (some ("a@b.c"))
        [{ defaultProfile ("u6w") with email := some ("A@B.C") }] = none :=
  ⟨c6_amended.1 { email := some ("a@b.c") }
      [{ defaultProfile ("u6w") with email := some ("A@B.C") }] (by decide),
   c6_amended.2.1 ("a@b.c")
      [{ defaultProfile ("u6w") with email := some ("A@B.C") }] (by decide)⟩

/-- Claim C7: a signature-verified webhook event that resolves to no local
user is acknowledged with HTTP 200 and writes nothing to any profile, on
both the Stripe and the Lemon webhook paths. -/
theorem c7_unmatched_silent :
    (∀ now e store, stripeResolve e store = none →
        (applyStripeWebhook now e store).1 = store ∧
        (applyStripeWebhook now e store).2.status = 200) ∧
    (∀ now allowed ev store, resolveLemonUser store ev = none →
        (applyLemonWebhook now allowed ev store).1 = store ∧
        (applyLemonWebhook now allowed ev store).2.status = 200) := by
  constructor
  · intro now e store h
    cases e <;> simp only [stripeResolve] at h <;> simp [applyStripeWebhook, h]
  · intro now allowed ev store h
    simp only [applyLemonWebhook]
    split_ifs <;> simp_all

/-- Claim C7, witness. -/
theorem c7_witness :
    (applyStripeWebhook 0 (StripeEvent.invoicePaymentFailed (some ("cus_nobody")) none) []).1
        = [] ∧
    (applyStripeWebhook 0 (StripeEvent.invoicePaymentFailed (some ("cus_nobody")) none) []).2.status
        = 200 ∧
    (applyLemonWebhook 0 ("")
        { eventName := "subscription_updated", dataType := "subscriptions" } []).1 = [] ∧
    (applyLemonWebhook 0 ("")
        { eventName := "subscription_updated", dataType := "subscriptions" } []).2.status = 200 := by
  have h1 := c7_unmatched_silent.1 0
    (StripeEvent.invoicePaymentFailed (some ("cus_nobody")) none) [] (by decide)
  have h2 := c7_unmatched_silent.2 0 ("")
    { eventName := "subscription_updated", dataType := "subscriptions" } [] (by decide)
  exact ⟨h1.1, h1.2, h2.1, h2.2⟩

/-- Claim C8: the generation pipeline always attempts the primary backend
first; it attempts the direct provider exactly when the backend attempt
fails to produce text (`ok` false — a transport failure or non-success
status — or empty text); it synthesizes the deterministic templated local
letter exactly when both attempts fail and `ALLOW_LOCAL_FALLBACK` is
enabled; and with the flag disabled a double failure leaves no text (the
handler then answers 502). -/
theorem c8_gateway :
    ∀ b d allow jd re tn,
      ((gatewayRun b d allow jd re tn).attempts.head? = some AttemptTag.backendAttempt) ∧
      (AttemptTag.directAttempt ∈ (gatewayRun b d allow jd re tn).attempts ↔
        (b.ok && b.text != "") = false) ∧
      (AttemptTag.localSynthesis ∈ (gatewayRun b d allow jd re tn).attempts ↔
        ((b.ok && b.text != "") = false ∧ (d.ok && d.text != "") = false ∧ allow = true)) ∧
      (((b.ok && b.text != "") = false ∧ (d.ok && d.text != "") = false ∧ allow = true) →
        (gatewayRun b d allow jd re tn).finalText = generateFallbackCoverLetter jd re tn) ∧
      (((b.ok && b.text != "") = false ∧ (d.ok && d.text != "") = false ∧ allow = false) →
        (gatewayRun b d allow jd re tn).finalText = "") := by
  intro b d allow jd re tn
  cases hb : (b.ok && b.text != "") with
  | true =>
      have htx : (b.text == "") = false := by
        have h2 := (Bool.and_eq_true _ _).mp hb
        simpa using h2.2
      simp [gatewayRun, runPrimaryAndDirect, applyLocalFallback, hb, htx]
  | false =>
      cases hd2 : (d.ok && d.text != "") with
      | true =>
          have htx : (d.text == "") = false := by
            have h2 := (Bool.and_eq_true _ _).mp hd2
            simpa using h2.2
          simp [gatewayRun, runPrimaryAndDirect, applyLocalFallback, hb, hd2, htx]
      | false =>
          cases allow <;>
            simp [gatewayRun, runPrimaryAndDirect, applyLocalFallback, hb, hd2]

/-- Claim C8, witness. -/
theorem c8_witness :
    (gatewayRun { ok := false } { ok := false } true ("jobd") ("res") ("tn")).attempts.head?
        = some AttemptTag.backendAttempt ∧
    AttemptTag.localSynthesis ∈
        (gatewayRun { ok := false } { ok := false } true ("jobd") ("res") ("tn")).attempts ∧
    (gatewayRun { ok := false } { ok := false } true ("jobd") ("res") ("tn")).finalText
        = generateFallbackCoverLetter ("jobd") ("res") ("tn") := by
  have h := c8_gateway { ok := false } { ok := false } true ("jobd") ("res") ("tn")
  exact ⟨h.1, h.2.2.1.mpr ⟨rfl, rfl, rfl⟩, h.2.2.2.1 ⟨rfl, rfl, rfl⟩⟩

/-! ## Claim C5: idempotence of reconciliation

Helper lemmas about the list-modelled store. -/

/-- Updating rows by id does not change which ids are present. -/
theorem any_id_updateById (store : List Profile) (uid uid2 : String)
    (f : Profile → Profile) (hid : ∀ x, (f x).id = x.id) :
    ((updateById store uid f).any (fun p => p.id == uid2)) =
      (store.any (fun p => p.id == uid2)) := by
  induction store with
  | nil => rfl
  | cons a t ih =>
      simp only [updateById, List.map_cons, List.any_cons]
      have hhead : ((if (a.id == uid) = true then f a else a).id == uid2) = (a.id == uid2) := by
        by_cases h : (a.id == uid) = true <;> simp [h, hid]
      rw [hhead, show List.map (fun p => if (p.id == uid) = true then f p else p) t
          = updateById t uid f from rfl, ih]

/-- Writing `f2` over the rows already written by the id-preserving `f1` is
invisible through any projection `φ` that absorbs the second write
(`φ (f2 (f1 x)) = φ (f1 x)`). -/
theorem updateById_twice_map (φ : Profile → Profile) (store : List Profile) (uid : String)
    (f1 f2 : Profile → Profile) (hid1 : ∀ x, (f1 x).id = x.id)
    (h12 : ∀ x, φ (f2 (f1 x)) = φ (f1 x)) :
    (updateById (updateById store uid f1) uid f2).map φ =
      (updateById store uid f1).map φ := by
  simp only [updateById, List.map_map]
  apply List.map_congr_left
  intro p _
  by_cases h : p.id == uid
  · simp [Function.comp, h, hid1, h12]
  · simp [Function.comp, h]

/-- The upsert analogue of `updateById_twice_map`: a second upsert with a
write that `φ` absorbs is invisible through `φ`. -/
theorem upsertById_twice_map (φ : Profile → Profile) (store : List Profile) (uid : String)
    (f1 f2 : Profile → Profile) (hid1 : ∀ x, (f1 x).id = x.id)
    (h12 : ∀ x, φ (f2 (f1 x)) = φ (f1 x)) :
    (upsertById (upsertById store uid f1) uid f2).map φ =
      (upsertById store uid f1).map φ := by
  by_cases h : store.any (fun p => p.id == uid) = true
  · have h1 : (updateById store uid f1).any (fun p => p.id == uid) = true := by
      rw [any_id_updateById store uid uid f1 hid1]; exact h
    simp only [upsertById, h, if_true, h1]
    exact updateById_twice_map φ store uid f1 f2 hid1 h12
  · have h0 : store.any (fun p => p.id == uid) = false := by
      simpa using h
    have hdid : ((f1 (defaultProfile uid)).id == uid) = true := by
      simp [hid1, defaultProfile]
    have hnew : ((store ++ [f1 (defaultProfile uid)]).any (fun p => p.id == uid)) = true := by
      simp [List.any_append, hdid]
    have hno : ∀ p ∈ store, (p.id == uid) = false := by
      intro p hp
      by_contra hcon
      have : store.any (fun p => p.id == uid) = true :=
        List.any_eq_true.mpr ⟨p, hp, by simpa using hcon⟩
      simp [this] at h0
    simp only [upsertById, h0, Bool.false_eq_true, if_false, hnew, if_true]
    simp only [updateById, List.map_append, List.map_cons, List.map_nil, List.map_map]
    congr 1
    · apply List.map_congr_left
      intro p hp
      simp [Function.comp, hno p hp]
    · simp [hdid, h12]

/-- A row function that preserves both ids and the lookup predicate leaves
the id of the first predicate match unchanged under `updateById`. -/
theorem find?_id_updateById_of_pred_eq (store : List Profile) (uid : String)
    (f : Profile → Profile) (q : Profile → Bool)
    (hid : ∀ x, (f x).id = x.id) (hq : ∀ x, q (f x) = q x) :
    ((updateById store uid f).find? q).map (fun p => p.id) =
      (store.find? q).map (fun p => p.id) := by
  induction store with
  | nil => rfl
  | cons a t ih =>
      simp only [updateById, List.map_cons]
      by_cases h : (a.id == uid) = true
      · rw [if_pos h]
        by_cases h2 : q a = true
        · rw [List.find?_cons_of_pos _ (by rw [hq]; exact h2),
            List.find?_cons_of_pos _ h2]
          simp [hid]
        · rw [List.find?_cons_of_neg _ (by rw [hq]; simpa using h2),
            List.find?_cons_of_neg _ (by simpa using h2)]
          exact ih
      · rw [if_neg h]
        by_cases h2 : q a = true
        · rw [List.find?_cons_of_pos _ h2, List.find?_cons_of_pos _ h2]
        · rw [List.find?_cons_of_neg _ (by simpa using h2),
            List.find?_cons_of_neg _ (by simpa using h2)]
          exact ih

/-- A row function that forces the lookup predicate true on its image still
resolves to the written id under `updateById`, when the original first match
had that id. -/
theorem find?_id_updateById_of_pred_forced (store : List Profile) (uid : String)
    (f : Profile → Profile) (q : Profile → Bool)
    (hid : ∀ x, (f x).id = x.id) (hforce : ∀ x, q (f x) = true)
    (p0 : Profile) (hfind : store.find? q = some p0) (hp0 : p0.id = uid) :
    ((updateById store uid f).find? q).map (fun p => p.id) = some uid := by
  induction store with
  | nil => simp at hfind
  | cons a t ih =>
      by_cases h : (a.id == uid) = true
      · have hhd : ((updateById (a :: t) uid f).find? q) = some (f a) := by
          simp only [updateById, List.map_cons]
          rw [if_pos h]
          exact List.find?_cons_of_pos _ (hforce a)
        have ha : a.id = uid := by simpa using h
        simp [hhd, hid, ha]
      · simp only [updateById, List.map_cons]
        rw [if_neg h]
        by_cases h2 : q a = true
        · rw [List.find?_cons_of_pos _ h2] at hfind
          obtain rfl : a = p0 := by simpa using hfind
          exact absurd (by simp [hp0]) h
        · rw [List.find?_cons_of_neg _ (by simpa using h2)] at hfind
          rw [List.find?_cons_of_neg _ (by simpa using h2)]
          exact ih hfind

/-- After writing an id-preserving row function that forces the lookup
predicate on its image, the first predicate match of the upserted store
still carries the written id. -/
theorem emailResolve_stable (store : List Profile) (uid : String) (q0 : Profile)
    (pred : Profile → Bool) (F : Profile → Profile)
    (hid : ∀ x, (F x).id = x.id) (hforce : ∀ x, pred (F x) = true)
    (hfind : store.find? pred = some q0) (hq0 : q0.id = uid) :
    ∃ q1, (upsertById store uid F).find? pred = some q1 ∧ q1.id = uid := by
  have hany : store.any (fun p => p.id == uid) = true :=
    List.any_eq_true.mpr ⟨q0, List.mem_of_find?_eq_some hfind, by simp [hq0]⟩
  have h3 := find?_id_updateById_of_pred_forced store uid F pred hid hforce q0 hfind hq0
  rw [upsertById, if_pos hany]
  cases hf2 : (updateById store uid F).find? pred with
  | none => rw [hf2] at h3; simp at h3
  | some q1 =>
      rw [hf2] at h3
      exact ⟨q1, rfl, by simpa using h3⟩

/-- User resolution of the webhook checkout branch is stable under applying
its own write: re-resolving an identical session on the written store yields
the same user. -/
theorem checkoutResolvedUser_stable (ref meta email : Option String)
    (store : List Profile) (uid : String) (F : Profile → Profile)
    (hid : ∀ x, (F x).id = x.id) (hemail : ∀ x, (F x).email = email)
    (h : checkoutResolvedUser ref meta email store = some uid) :
    checkoutResolvedUser ref meta email (upsertById store uid F) = some uid := by
  simp only [checkoutResolvedUser] at h ⊢
  by_cases t0 : optTruthy (jsOrOpt ref meta) = true
  · simp only [t0, Bool.not_true, Bool.false_and, if_false] at h ⊢
    exact h
  · have t0f : optTruthy (jsOrOpt ref meta) = false := by simpa using t0
    simp only [t0f, Bool.not_false, Bool.true_and] at h ⊢
    by_cases te : optTruthy email = true
    · simp only [te, if_true] at h ⊢
      cases hf : findByEmailExact store (email.getD ("")) with
      | none =>
          simp only [hf] at h
          simp [t0f] at h
      | some q =>
          simp only [hf] at h
          by_cases hq : (q.id != "") = true
          · rw [if_pos hq] at h
            have hqt : optTruthy (some q.id) = true := by
              simpa [optTruthy_some] using hq
            rw [if_pos hqt] at h
            have huid : q.id = uid := by simpa using h
            obtain ⟨e2, he2⟩ : ∃ e2, email = some e2 := by
              cases email with
              | none => simp [optTruthy_none] at te
              | some x => exact ⟨x, rfl⟩
            have hforce : ∀ x, ((F x).email == some (email.getD (""))) = true := by
              intro x
              rw [hemail, he2]
              simp
            obtain ⟨q1, hq1f, hq1id⟩ := emailResolve_stable store uid q
              (fun p => p.email == some (email.getD (""))) F hid hforce hf huid
            have hq1ne : (q1.id != "") = true := by
              rw [hq1id, ← huid]; exact hq
            have huidne : ¬(uid = "") := by
              rw [← huid]; simpa using hq
            simp [findByEmailExact, hq1f, hq1ne, hq1id, optTruthy_some, huidne]
          · have hqf : q.id = "" := by simpa using hq
            simp [hqf, t0f] at h
    · have tef : optTruthy email = false := by simpa using te
      simp only [tef, Bool.and_false, if_false] at h
      simp [t0f] at h

/-- Customer-id lookup is stable under row functions that preserve the
stored customer id. -/
theorem findByCustomer_map_id_updateById (store : List Profile) (cv uid : String)
    (f : Profile → Profile) (hid : ∀ x, (f x).id = x.id)
    (hcust : ∀ x, (f x).stripe_customer_id = x.stripe_customer_id) :
    (findByCustomer (updateById store uid f) cv).map (fun p => p.id) =
      (findByCustomer store cv).map (fun p => p.id) := by
  have hq : ∀ x, ((f x).stripe_customer_id == some cv) = (x.stripe_customer_id == some cv) := by
    intro x; rw [hcust]
  exact find?_id_updateById_of_pred_eq store uid f _ hid hq

/-- User resolution of the Lemon webhook is stable under applying its own
write: re-resolving an identical payload on the written store yields the
same user. -/
theorem resolveLemonUser_stable (ev : LemonEvent) (store : List Profile) (uid : String)
    (F : Profile → Profile) (hid : ∀ x, (F x).id = x.id)
    (hemail : ∀ x, (F x).email = ev.email)
    (h : resolveLemonUser store ev = some uid) :
    resolveLemonUser (upsertById store uid F) ev = some uid := by
  simp only [resolveLemonUser] at h ⊢
  by_cases t0 : optTruthy ev.customUserId = true
  · simp only [t0, Bool.not_true, Bool.false_and, if_false] at h ⊢
    exact h
  · have t0f : optTruthy ev.customUserId = false := by simpa using t0
    simp only [t0f, Bool.not_false, Bool.true_and] at h ⊢
    by_cases te : optTruthy ev.email = true
    · simp only [te, if_true] at h ⊢
      cases hf : findByEmailCI store (ev.email.getD ("")) with
      | none =>
          simp only [hf] at h
          simp [t0f] at h
      | some q =>
          simp only [hf] at h
          by_cases hq : (q.id != "") = true
          · rw [if_pos hq] at h
            have hqt : optTruthy (some q.id) = true := by
              simpa [optTruthy_some] using hq
            rw [if_pos hqt] at h
            have huid : q.id = uid := by simpa using h
            obtain ⟨e2, he2⟩ : ∃ e2, ev.email = some e2 := by
              cases hev : ev.email with
              | none => rw [hev] at te; simp [optTruthy_none] at te
              | some x => exact ⟨x, rfl⟩
            have hforce : ∀ x,
                ((F x).email.map jsToLower == some (jsToLower (ev.email.getD ("")))) = true := by
              intro x
              rw [hemail, he2]
              simp
            have hf2 : store.find?
                (fun p => p.email.map jsToLower == some (jsToLower (ev.email.getD ("")))) = some q := hf
            obtain ⟨q1, hq1f, hq1id⟩ := emailResolve_stable store uid q
              (fun p => p.email.map jsToLower == some (jsToLower (ev.email.getD ("")))) F
              hid hforce hf2 huid
            have hq1ne : (q1.id != "") = true := by
              rw [hq1id, ← huid]; exact hq
            have huidne : ¬(uid = "") := by
              rw [← huid]; simpa using hq
            simp [findByEmailCI, hq1f, hq1ne, hq1id, optTruthy_some, huidne]
          · have hqf : q.id = "" := by simpa using hq
            simp [hqf, t0f] at h
    · have tef : optTruthy ev.email = false := by simpa using te
      simp only [tef, Bool.and_false, if_false] at h
      simp [t0f] at h

set_option maxRecDepth 4000 in
/-- Claim C5, counterexample: the Lemon mapping consults the clock, so
re-applying the identical `cancelled` payload (custom user id `u5`, period
end at 100) at time 50 and again at time 150 flips the profile from
`(is_pro = true, subscription_status = "active")` to
`(is_pro = false, subscription_status = "cancelled")` — entitlement fields
beyond `updated_at` change on the second application. -/
theorem c5_counterexample :
    let ev : LemonEvent := {
      eventName := "subscription_updated", dataType := "subscriptions",
      customUserId := some ("u5"), status := some ("cancelled"), renewsAt := some 100 }
    ((applyLemonWebhook 50 ("") ev []).1).map
        (fun p => (p.is_pro, p.subscription_status)) = [(true, some ("active"))] ∧
    ((applyLemonWebhook 150 ("") ev ((applyLemonWebhook 50 ("") ev []).1)).1).map
        (fun p => (p.is_pro, p.subscription_status)) = [(false, some ("cancelled"))] := by
  decide

/-- Claim C5, amended: re-applying an identical provider payload leaves
every profile field other than `updated_at` unchanged — for every Stripe
webhook event at any pair of delivery times, and for every Lemon webhook
payload whose mapped entitlement state is the same at the two delivery
times.  The exception the clock creates is exactly the remaining Lemon
case: a `canceled`/`cancelled` payload whose period end lies between the
two deliveries maps to `(active, is_pro = true)` first and to the verbatim
status with `is_pro = false` second. -/
theorem c5_amended :
    (∀ now1 now2 e store,
        ((applyStripeWebhook now2 e (applyStripeWebhook now1 e store).1).1).map clearTimestamp =
          ((applyStripeWebhook now1 e store).1).map clearTimestamp) ∧
    (∀ now1 now2 allowed ev store,
        mapSubscriptionState now2 ev.status ev.renewsAt ev.endsAt ev.trialEndsAt =
          mapSubscriptionState now1 ev.status ev.renewsAt ev.endsAt ev.trialEndsAt →
        ((applyLemonWebhook now2 allowed ev (applyLemonWebhook now1 allowed ev store).1).1).map
            clearTimestamp =
          ((applyLemonWebhook now1 allowed ev store).1).map clearTimestamp) := by
  constructor
  · intro now1 now2 e store
    cases e with
    | checkoutCompleted ref meta email customer sub sd =>
        cases hr : checkoutResolvedUser ref meta email store with
        | none => simp [applyStripeWebhook, hr]
        | some uid =>
            have hid1 : ∀ x, (applyCheckoutCompleted now1 email customer sub sd x).id = x.id :=
              fun x => rfl
            have hemail : ∀ x, (applyCheckoutCompleted now1 email customer sub sd x).email = email :=
              fun x => rfl
            have h12 : ∀ x, clearTimestamp (applyCheckoutCompleted now2 email customer sub sd
                (applyCheckoutCompleted now1 email customer sub sd x)) =
                clearTimestamp (applyCheckoutCompleted now1 email customer sub sd x) := by
              intro x; cases sd <;> rfl
            have hst := checkoutResolvedUser_stable ref meta email store uid _ hid1 hemail hr
            simp only [applyStripeWebhook, hr, hst]
            exact upsertById_twice_map clearTimestamp store uid _ _ hid1 h12
    | invoicePaymentFailed c sub =>
        cases c with
        | none => rfl
        | some cv =>
            cases hr : (findByCustomer store cv).map (fun p => p.id) with
            | none => simp [applyStripeWebhook, hr]
            | some uid =>
                have hst : (findByCustomer
                    (updateById store uid (applyInvoicePaymentFailed now1 sub)) cv).map
                      (fun p => p.id) = some uid := by
                  rw [findByCustomer_map_id_updateById store cv uid
                    (applyInvoicePaymentFailed now1 sub) (fun x => rfl) (fun x => rfl)]
                  exact hr
                simp only [applyStripeWebhook, Option.some_bind, hr, hst]
                exact updateById_twice_map clearTimestamp store uid _ _ (fun x => rfl)
                  (fun x => rfl)
    | subscriptionDeleted c subId planId =>
        cases c with
        | none => rfl
        | some cv =>
            cases hr : (findByCustomer store cv).map (fun p => p.id) with
            | none => simp [applyStripeWebhook, hr]
            | some uid =>
                have hst : (findByCustomer
                    (updateById store uid (applySubscriptionDeleted now1 subId planId)) cv).map
                      (fun p => p.id) = some uid := by
                  rw [findByCustomer_map_id_updateById store cv uid
                    (applySubscriptionDeleted now1 subId planId) (fun x => rfl) (fun x => rfl)]
                  exact hr
                simp only [applyStripeWebhook, Option.some_bind, hr, hst]
                exact updateById_twice_map clearTimestamp store uid _ _ (fun x => rfl)
                  (fun x => rfl)
    | subscriptionUpdated c u =>
        cases c with
        | none => rfl
        | some cv =>
            cases hr : (findByCustomer store cv).map (fun p => p.id) with
            | none => simp [applyStripeWebhook, hr]
            | some uid =>
                have h12 : ∀ x, clearTimestamp (applySubscriptionUpdated now2 u
                    (applySubscriptionUpdated now1 u x)) =
                    clearTimestamp (applySubscriptionUpdated now1 u x) := by
                  intro x
                  cases hcpe : u.current_period_end <;>
                    cases hcanc : (u.status == "canceled" || u.status == "unpaid") <;>
                    cases hact : (u.status == "active") <;>
                    simp [applySubscriptionUpdated, clearTimestamp, hcpe, hcanc, hact]
                have hst : (findByCustomer
                    (updateById store uid (applySubscriptionUpdated now1 u)) cv).map
                      (fun p => p.id) = some uid := by
                  rw [findByCustomer_map_id_updateById store cv uid
                    (applySubscriptionUpdated now1 u) (fun x => rfl) (fun x => rfl)]
                  exact hr
                simp only [applyStripeWebhook, Option.some_bind, hr, hst]
                exact updateById_twice_map clearTimestamp store uid _ _ (fun x => rfl) h12
    | invoicePaymentSucceeded c sub =>
        cases c with
        | none => rfl
        | some cv =>
            cases hr : (findByCustomer store cv).map (fun p => p.id) with
            | none => simp [applyStripeWebhook, hr]
            | some uid =>
                have hst : (findByCustomer
                    (updateById store uid (applyInvoicePaymentSucceeded now1 sub)) cv).map
                      (fun p => p.id) = some uid := by
                  rw [findByCustomer_map_id_updateById store cv uid
                    (applyInvoicePaymentSucceeded now1 sub) (fun x => rfl) (fun x => rfl)]
                  exact hr
                simp only [applyStripeWebhook, Option.some_bind, hr, hst]
                exact updateById_twice_map clearTimestamp store uid _ _ (fun x => rfl)
                  (fun x => rfl)
    | otherEvent => rfl
  · intro now1 now2 allowed ev store hm
    by_cases h1 : (jsStartsWith (jsToLower ev.eventName) ("subscription_") ||
        jsToLower ev.dataType == "subscriptions") = true
    · by_cases h2 : (allowed != "" && ev.productId != "" &&
          allowed != ev.productId) = true
      · simp [applyLemonWebhook, h1, h2]
      · have h2f : (allowed != "" && ev.productId != "" &&
            allowed != ev.productId) = false := by simpa using h2
        cases hr : resolveLemonUser store ev with
        | none => simp [applyLemonWebhook, h1, h2f, hr]
        | some uid =>
            have hst := resolveLemonUser_stable ev store uid (lemonProfileWrite now1 ev)
              (fun x => rfl) (fun x => rfl) hr
            have h12 : ∀ x, clearTimestamp (lemonProfileWrite now2 ev
                (lemonProfileWrite now1 ev x)) =
                clearTimestamp (lemonProfileWrite now1 ev x) := by
              intro x
              simp [lemonProfileWrite, clearTimestamp, hm]
            simp only [applyLemonWebhook, h1, h2f, hr, hst, Bool.not_true,
              Bool.false_eq_true, if_false]
            exact upsertById_twice_map clearTimestamp store uid _ _ (fun x => rfl) h12
    · have h1f : (jsStartsWith (jsToLower ev.eventName) ("subscription_") ||
          jsToLower ev.dataType == "subscriptions") = false := by simpa using h1
      simp [applyLemonWebhook, h1f]

/-- Claim C5, witness for the amended theorem: an identical `active`
payload re-delivered at a later time maps to the same state at both times,
so the second application changes nothing beyond `updated_at`. -/
theorem c5_witness :
    ((applyLemonWebhook 7 ("")
        { eventName := "subscription_updated", dataType := "subscriptions",
          customUserId := some ("u5w"), status := some ("active") }
        ((applyLemonWebhook 3 ("")
          { eventName := "subscription_updated", dataType := "subscriptions",
            customUserId := some ("u5w"), status := some ("active") } []).1)).1).map
        clearTimestamp =
      ((applyLemonWebhook 3 ("")
        { eventName := "subscription_updated", dataType := "subscriptions",
          customUserId := some ("u5w"), status := some ("active") } []).1).map
        clearTimestamp :=
  c5_amended.2 3 7 ("")
    { eventName := "subscription_updated", dataType := "subscriptions",
      customUserId := some ("u5w"), status := some ("active") } [] (by decide)

/-! ## Claims C9 and C10: resume ingestion -/

/-- Path equation: a fingerprint cache hit returns the stored summary and
touches nothing. -/
theorem resumeUpload_cacheHit (now : Int) (p : Profile) (T : String) (ai : FetchResult)
    (hlen : ¬(T.length < SCANNED_THRESHOLD))
    (hcache : (p.resume_hash == some (computeHash T) && optTruthy p.resume_summary) = true) :
    resumeUpload now p T ai =
      { resp := { status := 200, summary := p.resume_summary, cached := some true },
        calledGateway := false, profile := p } := by
  simp only [resumeUpload, if_neg hlen, hcache, if_true]

/-- Path equation: a cache miss with a successful summary request persists
the fingerprint and the (never empty, given enough text) summary. -/
theorem resumeUpload_fresh (now : Int) (p : Profile) (T : String) (ai : FetchResult)
    (hlen : ¬(T.length < SCANNED_THRESHOLD))
    (hcache : (p.resume_hash == some (computeHash T) && optTruthy p.resume_summary) = false)
    (hok : ai.ok = true) :
    resumeUpload now p T ai =
      { resp := { status := 200,
                  summary := some (if (jsOrStr ai.text ("")).trim == ""
                    then jsSubstring T MAX_SUMMARY_CHARS else (jsOrStr ai.text ("")).trim),
                  cached := some false },
        calledGateway := true,
        profile := { p with
          resume_hash := some (computeHash T),
          resume_summary := some (if (jsOrStr ai.text ("")).trim == ""
            then jsSubstring T MAX_SUMMARY_CHARS else (jsOrStr ai.text ("")).trim),
          resume_updated_at := some now,
          updated_at := now } } := by
  simp only [resumeUpload, if_neg hlen, hcache, Bool.false_eq_true, if_false,
    hok, Bool.not_true]

set_option maxRecDepth 4000 in
/-- Claim C9, counterexample: when the first upload's summary request fails
(degraded `raw: true` path), nothing is persisted, so a second upload of the
identical text is not served from the cache — it invokes the gateway again
and does not answer `cached: true`. -/
theorem c9_counterexample :
    let longText : String := String.mk (List.replicate 200 'a')
    let p0 : Profile := defaultProfile ("u9")
    (resumeUpload 0 p0 longText { ok := false }).profile = p0 ∧
    (resumeUpload 0 p0 longText { ok := false }).resp.raw = some true ∧
    (resumeUpload 1 (resumeUpload 0 p0 longText { ok := false }).profile longText
        { ok := false }).calledGateway = true ∧
    (resumeUpload 1 (resumeUpload 0 p0 longText { ok := false }).profile longText
        { ok := false }).resp.cached ≠ some true := by
  decide

/-- Claim C9, amended: provided the first upload's summary request succeeds
(so the fingerprint and a non-empty summary are persisted, or the profile
was already a cache hit), a second upload of identical extracted text
answers HTTP 200 with `cached: true` and the stored summary, does not
invoke the generation gateway, and leaves the profile unchanged. -/
theorem c9_amended :
    ∀ now now2 p T ai ai2,
      SCANNED_THRESHOLD ≤ T.length → ai.ok = true →
      (resumeUpload now2 (resumeUpload now p T ai).profile T ai2).resp.status = 200 ∧
      (resumeUpload now2 (resumeUpload now p T ai).profile T ai2).resp.cached = some true ∧
      (resumeUpload now2 (resumeUpload now p T ai).profile T ai2).resp.summary =
        (resumeUpload now p T ai).profile.resume_summary ∧
      (resumeUpload now2 (resumeUpload now p T ai).profile T ai2).calledGateway = false ∧
      (resumeUpload now2 (resumeUpload now p T ai).profile T ai2).profile =
        (resumeUpload now p T ai).profile := by
  intro now now2 p T ai ai2 hlen hok
  have hnotlt : ¬(T.length < SCANNED_THRESHOLD) := by omega
  by_cases hcache : (p.resume_hash == some (computeHash T) && optTruthy p.resume_summary) = true
  · rw [resumeUpload_cacheHit now p T ai hnotlt hcache]
    rw [resumeUpload_cacheHit now2 p T ai2 hnotlt hcache]
    exact ⟨rfl, rfl, rfl, rfl, rfl⟩
  · have hcachef : (p.resume_hash == some (computeHash T) && optTruthy p.resume_summary) = false := by
      simpa using hcache
    have hTlen : 200 ≤ T.data.length := by
      have h1 : T.length = T.data.length := rfl
      simp only [SCANNED_THRESHOLD] at hlen
      omega
    have hsub_ne : ((jsSubstring T MAX_SUMMARY_CHARS) != "") = true := by
      rw [bne_iff_ne]
      intro hcon
      have hl := congrArg String.length hcon
      simp only [jsSubstring] at hl
      have hl2 : (T.data.take MAX_SUMMARY_CHARS).length = 0 := hl
      rw [List.length_take] at hl2
      simp only [MAX_SUMMARY_CHARS] at hl2
      omega
    have hsummary_ne : ((if (jsOrStr ai.text ("")).trim == ""
        then jsSubstring T MAX_SUMMARY_CHARS else (jsOrStr ai.text ("")).trim) != "") = true := by
      by_cases h0 : ((jsOrStr ai.text ("")).trim == "") = true
      · rw [if_pos h0]; exact hsub_ne
      · rw [if_neg h0]; simpa using h0
    rw [resumeUpload_fresh now p T ai hnotlt hcachef hok]
    have hcache2 : ((({ p with
        resume_hash := some (computeHash T),
        resume_summary := some (if (jsOrStr ai.text ("")).trim == ""
          then jsSubstring T MAX_SUMMARY_CHARS else (jsOrStr ai.text ("")).trim),
        resume_updated_at := some now,
        updated_at := now } : Profile).resume_hash == some (computeHash T)) &&
        optTruthy ({ p with
        resume_hash := some (computeHash T),
        resume_summary := some (if (jsOrStr ai.text ("")).trim == ""
          then jsSubstring T MAX_SUMMARY_CHARS else (jsOrStr ai.text ("")).trim),
        resume_updated_at := some now,
        updated_at := now } : Profile).resume_summary) = true := by
      have h2 := hsummary_ne
      simp only [bne_iff_ne, beq_iff_eq] at h2
      simp [optTruthy_some, bne_iff_ne]
      exact h2
    rw [resumeUpload_cacheHit now2 _ T ai2 hnotlt hcache2]
    exact ⟨rfl, rfl, rfl, rfl, rfl⟩

set_option maxRecDepth 4000 in
/-- Claim C9, witness for the amended theorem. -/
theorem c9_witness :
    (resumeUpload 1
        (resumeUpload 0 (defaultProfile ("u9w")) (String.mk (List.replicate 200 'b'))
          { ok := true, text := "SUMMARY" }).profile
        (String.mk (List.replicate 200 'b'))
        { ok := false }).resp.cached = some true ∧
    (resumeUpload 1
        (resumeUpload 0 (defaultProfile ("u9w")) (String.mk (List.replicate 200 'b'))
          { ok := true, text := "SUMMARY" }).profile
        (String.mk (List.replicate 200 'b'))
        { ok := false }).calledGateway = false := by
  have h := c9_amended 0 1 (defaultProfile ("u9w")) (String.mk (List.replicate 200 'b'))
    { ok := true, text := "SUMMARY" } { ok := false } (by decide) rfl
  exact ⟨h.2.1, h.2.2.2.1⟩

/-- Claim C10: when the summary request fails (non-success status or
transport error, both `ok = false` here) on a cache miss, the handler
answers HTTP 200 with `raw: true` and the truncated raw excerpt, and the
profile — in particular `resume_hash`, `resume_summary` and
`resume_updated_at` — is left entirely unchanged. -/
theorem c10_degraded_not_persisted :
    ∀ now p T ai,
      ¬(T.length < SCANNED_THRESHOLD) →
      (p.resume_hash == some (computeHash T) && optTruthy p.resume_summary) = false →
      ai.ok = false →
      resumeUpload now p T ai =
        { resp := { status := 200, summary := some (jsSubstring T MAX_SUMMARY_CHARS),
                    raw := some true },
          calledGateway := true, profile := p } := by
  intro now p T ai hlen hcache hfail
  simp only [resumeUpload, if_neg hlen, hcache, Bool.false_eq_true, if_false,
    hfail, Bool.not_false, if_true]

set_option maxRecDepth 4000 in
/-- Claim C10, witness. -/
theorem c10_witness :
    resumeUpload 0 (defaultProfile ("u10w")) (String.mk (List.replicate 200 'c'))
        { ok := false } =
      { resp := { status := 200,
                  summary := some (jsSubstring (String.mk (List.replicate 200 'c'))
                    MAX_SUMMARY_CHARS),
                  raw := some true },
        calledGateway := true, profile := defaultProfile ("u10w") } :=
  c10_degraded_not_persisted 0 (defaultProfile ("u10w"))
    (String.mk (List.replicate 200 'c')) { ok := false } (by decide) (by decide) rfl

end CoverSite
